import Mathlib

/-!
# Verification of `src/jobs/spark_history_demo.py`

Shallow embedding of the Spark History Server demo job.  The job is a linear
pipeline driven by `run_complex_spark_job(input_path, output_path)`:

1. validate the two path arguments (empty string check, lines 61-65);
2. acquire a Spark session (line 67);
3. generate a synthetic dataset `spark.range(0, 10000000)` with columns
   `value = rand()` and `group = id % 1000` (lines 72-76);
4. write it to `{input_path}/raw_data` with mode "overwrite" and force it with
   a count (lines 80-85);
5. re-read it with an explicit schema and count the rows; raise if zero
   (lines 88-103);
6. cache, transform (`random`, recomputed `group`, `complex_calc`,
   repartition 200), aggregate by `group`, broadcast-join the aggregate back,
   add three window ranking columns (lines 107-140);
7. run a SQL group-by with `HAVING count(*) > 100` and `ORDER BY group` and
   write it to `{output_path}/sql_results` (lines 146-161);
8. run a final group-by (after repartition 100) and write it to
   `{output_path}/final_results`, show a sample, count (lines 165-181);
9. stop the session (line 186) - executed only on the normal path, since the
   function has no try/finally.

External collaborators (the dataframe engine's numeric primitives, the random
source, and the object store) are parameters of the embedding, bundled in
`Env`.  Dataset contents are modelled as Lean lists of rows with rational
number columns; machine floats have no bearing on any verified property, which
all concern row counts, group values, event ordering and error behaviour.
The dataset size `spark.range(0, 10000000)` is a parameter `numRows` of the
embedding (the spec calls the size configurable); the reference configuration
is `refNumRows = 10000000`.
-/

namespace SparkHistoryDemo

/-- A row of the generated dataset `df` (lines 72-76): `id` from
`spark.range`, `value = rand()`, `group = id % 1000`. -/
structure GenRow where
  id : Nat
  value : ℚ
  group : Nat
deriving DecidableEq, Repr

/-- The external collaborators of the runner: the engine's random source
(`rand()` draws, one per row, indexed by the row's `id`), the engine numeric
primitives that are not rational-valued operations (`sin`, `sqrt` used by
`stddev`, `percentile_approx`, `approx_count_distinct`), and the object
store.  `storeRead p d` is the dataset the store returns for a read of path
`p` when `d` is the dataset written to `p` earlier in the same run; a store
with read-after-write consistency returns `d` itself, a degraded store may
return anything, including the empty dataset. -/
structure Env where
  rand1 : Nat → ℚ
  rand2 : Nat → ℚ
  sinQ : Nat → ℚ
  sqrtQ : ℚ → ℚ
  percentile_approx : List ℚ → ℚ → ℚ
  approx_count_distinct : List Nat → Nat
  storeRead : String → List GenRow → List GenRow

/-- Lines 72-76: `spark.range(0, numRows)` with `value = rand()` and
`group = col("id") % 1000`. -/
def genDF (env : Env) (numRows : Nat) : List GenRow :=
  (List.range numRows).map fun i => ⟨i, env.rand1 i, i % 1000⟩

/-- The dataset size of the reference configuration, `spark.range(0, 10000000)`
(line 72). -/
def refNumRows : Nat := 10000000

/-- Spark data types appearing in the declared read schema (line 42 imports,
lines 88-92). -/
inductive DataType
  | LongType
  | DoubleType
deriving DecidableEq, Repr

/-- One field of a Spark `StructType`: name, data type and the `nullable`
flag (the third argument of `StructField`). -/
structure StructField where
  name : String
  dataType : DataType
  nullable : Bool
deriving DecidableEq, Repr

/-- Lines 88-92: the explicit schema used for the re-read,
`StructField("id", LongType(), True)`, `StructField("value", DoubleType(),
True)`, `StructField("group", LongType(), True)`.  The third argument of
`StructField` is the `nullable` flag, and it is `True` for all three
fields. -/
def schema : List StructField :=
  [⟨"id", DataType.LongType, true⟩,
   ⟨"value", DataType.DoubleType, true⟩,
   ⟨"group", DataType.LongType, true⟩]

/-- `repartition(n)` (lines 116 and 165) changes only the physical
partitioning of a dataset; the logical row content is unchanged, so the
embedding is the identity on the row list. -/
def repartition (_numPartitions : Nat) (rows : List α) : List α :=
  rows

/-- A row of `df1` (lines 112-116): the re-read columns plus
`random = rand()`, `group` recomputed as `id % 1000`, and
`complex_calc = pow(random, 2) + sin(id)`. -/
structure Row1 where
  id : Nat
  value : ℚ
  random : ℚ
  group : Nat
  complex_calc : ℚ
deriving DecidableEq, Repr

/-- Lines 112-116: `df.withColumn("random", rand()).withColumn("group",
col("id") % 1000).withColumn("complex_calc", pow(col("random"), 2) +
sin(col("id")))`.  (The `repartition(200)` of line 116 is applied by the
caller.) -/
def mkDf1 (env : Env) (rows : List GenRow) : List Row1 :=
  rows.map fun r =>
    ⟨r.id, r.value, env.rand2 r.id, r.id % 1000,
     (env.rand2 r.id) ^ 2 + env.sinQ r.id⟩

/-- A row of `df2` (lines 120-126): one row per distinct `group` with
count / sum / avg / approximate median aggregates. -/
structure AggRow where
  group : Nat
  count : Nat
  sum : ℚ
  avg : ℚ
  median : ℚ
deriving DecidableEq, Repr

/-- Lines 120-126: `df1.groupBy("group").agg(count("*"), sum("complex_calc"),
avg("random"), percentile_approx("random", 0.5))`.  One output row per
distinct value of `group`, in first-occurrence order (the engine leaves the
order unspecified; no verified property depends on it). -/
def mkDf2 (env : Env) (rows : List Row1) : List AggRow :=
  ((rows.map (·.group)).dedup).map fun g =>
    let members := rows.filter fun r => r.group == g
    ⟨g, members.length,
     (members.map (·.complex_calc)).sum,
     (members.map (·.random)).sum / (members.length : ℚ),
     env.percentile_approx (members.map (·.random)) (1 / 2)⟩

/-- A row of `df3` (line 130): the join of a `df1` row with the `df2`
aggregate row of the same `group`. -/
structure Row3 where
  group : Nat
  id : Nat
  value : ℚ
  random : ℚ
  complex_calc : ℚ
  count : Nat
  sum : ℚ
  avg : ℚ
  median : ℚ
deriving DecidableEq, Repr

/-- Line 130: `df1.join(broadcast(df2), "group")` - an inner equi-join on the
`group` column (`broadcast` is a physical-plan hint with no logical
effect). -/
def joinOnGroup (df1 : List Row1) (df2 : List AggRow) : List Row3 :=
  df1.flatMap fun r =>
    (df2.filter fun a => a.group == r.group).map fun a =>
      ⟨r.group, r.id, r.value, r.random, r.complex_calc,
       a.count, a.sum, a.avg, a.median⟩

/-- A row of `df4` (lines 136-138): `df3` plus the three window ranking
columns. -/
structure Row4 where
  group : Nat
  id : Nat
  value : ℚ
  random : ℚ
  complex_calc : ℚ
  count : Nat
  sum : ℚ
  avg : ℚ
  median : ℚ
  row_number : Nat
  rank : Nat
  dense_rank : Nat
deriving DecidableEq, Repr

/-- Lines 134-138: `Window.partitionBy("group").orderBy("random")` with
`row_number()`, `rank()` and `dense_rank()`.  Within a partition (the rows of
equal `group`), `rank` is one plus the number of rows strictly below in the
`random` order, `dense_rank` is one plus the number of distinct smaller
`random` keys, and `row_number` breaks ties in `random` by row identity
(modelled with the `id` column; the engine's tie order is unspecified, and no
verified property depends on it). -/
def windowFuncs (rows : List Row3) : List Row4 :=
  rows.map fun r =>
    let peers := rows.filter fun y => y.group == r.group
    let below := peers.filter fun y => decide (y.random < r.random)
    ⟨r.group, r.id, r.value, r.random, r.complex_calc,
     r.count, r.sum, r.avg, r.median,
     1 + peers.countP fun y =>
       decide (y.random < r.random ∨ (y.random = r.random ∧ y.id < r.id)),
     1 + below.length,
     1 + ((below.map (·.random)).dedup).length⟩

/-- A row of `sql_result` (lines 146-157). -/
structure SqlRow where
  group : Nat
  avg_calc : ℚ
  max_random : ℚ
  min_random : ℚ
  distinct_ids : Nat
deriving DecidableEq, Repr

/-- Lines 146-157: the SQL query over the view `complex_data` (which holds
`df4`): group by `group`, compute `avg(complex_calc)`, `max(random)`,
`min(random)`, `approx_count_distinct(id)`, keep only groups with
`HAVING count(*) > 100`, and `ORDER BY group`.  (`max?`/`min?` fall back to
`0` on an empty member list, which cannot occur: every group key comes from
some row.) -/
def sqlAggRow (env : Env) (rows : List Row4) (g : Nat) : SqlRow :=
  let members := rows.filter fun r => r.group == g
  ⟨g,
   (members.map (·.complex_calc)).sum / (members.length : ℚ),
   ((members.map (·.random)).max?).getD 0,
   ((members.map (·.random)).min?).getD 0,
   env.approx_count_distinct (members.map (·.id))⟩

/-- Lines 146-157, continued: one `(count(*), aggregate-row)` entry per
distinct group, the `HAVING count(*) > 100` filter, the projection to the
selected columns, and `ORDER BY group`. -/
def sqlQuery (env : Env) (rows : List Row4) : List SqlRow :=
  let grouped := ((rows.map (·.group)).dedup).map fun g =>
    ((rows.filter fun r => r.group == g).length, sqlAggRow env rows g)
  ((grouped.filter fun p => 100 < p.1).map (·.2)).mergeSort
    fun a b => a.group ≤ b.group

/-- A row of `final_result` (lines 165-172). -/
structure FinalRow where
  group : Nat
  count : Nat
  sum_calc : ℚ
  avg_random : ℚ
  max_row_num : Nat
  std_dev : ℚ
deriving DecidableEq, Repr

/-- Lines 165-172: `df4.repartition(100).groupBy("group").agg(count("*"),
sum(complex_calc), avg(random), max(row_number), stddev(complex_calc))`.
`stddev` is the sample standard deviation: the square root (an engine
primitive, `Env.sqrtQ`) of the sum of squared deviations over `n - 1`.
(The `repartition(100)` of line 165 is applied by the caller.) -/
def finalAgg (env : Env) (rows : List Row4) : List FinalRow :=
  ((rows.map (·.group)).dedup).map fun g =>
    let members := rows.filter fun r => r.group == g
    let mean := (members.map (·.complex_calc)).sum / (members.length : ℚ)
    ⟨g, members.length,
     (members.map (·.complex_calc)).sum,
     (members.map (·.random)).sum / (members.length : ℚ),
     (members.map (·.row_number)).foldr Nat.max 0,
     env.sqrtQ ((members.map fun r => (r.complex_calc - mean) ^ 2).sum /
       ((members.length : ℚ) - 1))⟩

/-- `df4` of the pipeline (lines 96-138), as a function of the environment,
the dataset size and `input_path`: the dataset re-read from
`{input_path}/raw_data` is transformed, aggregated, joined and extended with
the window columns. -/
def pipelineDf4 (env : Env) (numRows : Nat) (input_path : String) : List Row4 :=
  let dfR := env.storeRead (input_path ++ "/raw_data") (genDF env numRows)
  let df1 := repartition 200 (mkDf1 env dfR)
  windowFuncs (joinOnGroup df1 (mkDf2 env df1))

/-- The `sql_result` dataset of the pipeline (lines 146-157). -/
def pipelineSqlResult (env : Env) (numRows : Nat) (input_path : String) :
    List SqlRow :=
  sqlQuery env (pipelineDf4 env numRows input_path)

/-- The `final_result` dataset of the pipeline (lines 165-172). -/
def pipelineFinalResult (env : Env) (numRows : Nat) (input_path : String) :
    List FinalRow :=
  finalAgg env (repartition 100 (pipelineDf4 env numRows input_path))

/-- `initial_count` (line 84): the forcing count taken right after the
`raw_data` write; it counts the in-memory generated dataset. -/
def initial_count (env : Env) (numRows : Nat) : Nat :=
  (genDF env numRows).length

/-- `read_count` (line 99): the count of the dataset re-read from
`{input_path}/raw_data`. -/
def read_count (env : Env) (numRows : Nat) (input_path : String) : Nat :=
  (env.storeRead (input_path ++ "/raw_data") (genDF env numRows)).length

/-- The only exception the job raises itself is Python's `ValueError`
(lines 65 and 103), carrying a message. -/
inductive JobError
  | valueError (msg : String)
deriving DecidableEq, Repr

/-- Observable actions of the runner, in program order: session lifecycle,
object-store writes (with the write mode), forcing counts, caching, the
transformation / aggregation / join / window stages, view registration, the
SQL query, and the sample `show`. -/
inductive Event
  | sessionStart
  | write (path : String) (mode : String)
  | countJob (n : Nat)
  | persistCache
  | transformOp
  | aggregateOp
  | joinOp
  | windowOp
  | createView (viewName : String)
  | sqlOp
  | showSample
  | sessionStop
deriving DecidableEq, Repr

/-- The configuration error message of line 65. -/
def configErrorMsg : String :=
  "INPUT_PATH and OUTPUT_PATH must be set in the environment variables."

/-- The data-integrity error message of line 103. -/
def dataErrorMsg : String :=
  "No data was read from the input path. Please check the S3 location."

/-- Shallow embedding of `run_complex_spark_job` (lines 58-186).  Returns the
result (success, or the raised `ValueError`) together with the trace of
observable events up to the exit point, in program order:

* lines 61-65: if `input_path` or `output_path` is the empty string (falsy in
  Python), raise before the session is created - the trace is empty;
* line 67: the session starts;
* lines 80-85: write `{input_path}/raw_data` (mode "overwrite"), force with
  `initial_count = df.count()`;
* lines 96-103: re-read through the object store, `read_count = df.count()`;
  if zero, raise - the session is NOT stopped (the source has no
  try/finally), so the trace of this exit path has no `sessionStop`;
* lines 107-140: persist + forcing count, transformations, aggregation, join,
  window functions, forcing count of `df4`;
* lines 144-161: register the view `complex_data`, run the SQL query, write
  `{output_path}/sql_results` (mode "overwrite");
* lines 165-186: final aggregation, write `{output_path}/final_results`
  (mode "overwrite"), show a sample, forcing count, stop the session. -/
def run_complex_spark_job (env : Env) (numRows : Nat)
    (input_path output_path : String) : Except JobError Unit × List Event :=
  if input_path = "" ∨ output_path = "" then
    (Except.error (JobError.valueError configErrorMsg), [])
  else
    let rc := read_count env numRows input_path
    let pre : List Event :=
      [Event.sessionStart,
       Event.write (input_path ++ "/raw_data") ("overwrite"),
       Event.countJob (initial_count env numRows),
       Event.countJob rc]
    if rc = 0 then
      (Except.error (JobError.valueError dataErrorMsg), pre)
    else
      (Except.ok (),
       pre ++
        [Event.persistCache,
         Event.countJob rc,
         Event.transformOp,
         Event.aggregateOp,
         Event.joinOp,
         Event.windowOp,
         Event.countJob (pipelineDf4 env numRows input_path).length,
         Event.createView ("complex_data"),
         Event.sqlOp,
         Event.write (output_path ++ "/sql_results") ("overwrite"),
         Event.write (output_path ++ "/final_results") ("overwrite"),
         Event.showSample,
         Event.countJob (pipelineFinalResult env numRows input_path).length,
         Event.sessionStop])

/-- The subtrace of object-store writes. -/
def writeEvents (t : List Event) : List Event :=
  t.filter fun e =>
    match e with
    | Event.write _ _ => true
    | _ => false

/-- A concrete environment for evaluation: all engine numeric primitives
return `0` (`approx_count_distinct` counts exactly), and the object store has
read-after-write consistency. -/
def trivEnv : Env :=
  ⟨fun _ => 0, fun _ => 0, fun _ => 0, fun _ => 0,
   fun _ _ => 0, fun l => l.dedup.length, fun _ d => d⟩

/-- A concrete environment whose object store loses the written data: every
read returns the empty dataset. -/
def emptyStoreEnv : Env :=
  ⟨fun _ => 0, fun _ => 0, fun _ => 0, fun _ => 0,
   fun _ _ => 0, fun l => l.dedup.length, fun _ _ => []⟩

/-- A concrete ranked dataset with a single group of 101 members (all in
group 0), used to evaluate the `HAVING count(*) > 100` filter on an input
where the filter's condition is met. -/
def rows101 : List Row4 :=
  (List.range 101).map fun i => ⟨0, i, 0, 0, 0, 0, 0, 0, 0, 0, 0, 0⟩

/-! ## Claim C3: empty paths fail before any write -/

/-- C3: for every call with an empty `input_path` or an empty `output_path`,
`run_complex_spark_job` raises the configuration `ValueError` of line 65, and
its event trace is empty - in particular, no object-store location is
written. -/
theorem C3_config_error_before_any_write (env : Env) (numRows : Nat)
    (input_path output_path : String)
    (h : input_path = "" ∨ output_path = "") :
    (run_complex_spark_job env numRows input_path output_path).1 =
        Except.error (JobError.valueError configErrorMsg) ∧
      (run_complex_spark_job env numRows input_path output_path).2 = [] := by
  rw [run_complex_spark_job, if_pos h]
  exact ⟨rfl, rfl⟩

/-- C3 witness: the reference configuration with an empty `input_path`. -/
theorem C3_witness :
    ("" = "" ∨ "s3://bucket/out" = "") ∧
      ((run_complex_spark_job trivEnv refNumRows "" "s3://bucket/out").1 =
          Except.error (JobError.valueError configErrorMsg) ∧
        (run_complex_spark_job trivEnv refNumRows "" "s3://bucket/out").2 = []) :=
  ⟨Or.inl rfl,
   C3_config_error_before_any_write trivEnv refNumRows "" "s3://bucket/out"
     (Or.inl rfl)⟩

/-! ## Claim C6: the declared read schema -/

/-- C6 counterexample: it is not the case that every field of the declared
read schema is declared not null.  The third argument of each `StructField`
at lines 88-92 is the `nullable` flag, and it is `True` for all three
fields. -/
theorem C6_counterexample : ¬ ∀ f ∈ schema, f.nullable = false := by
  intro h
  exact absurd (h ⟨"id", DataType.LongType, true⟩ (by simp [schema])) (by simp)

/-- C6 (amended): the explicit schema declared for the re-read specifies
exactly three fields - `id` as 64-bit integer, `value` as double-precision
float, `group` as 64-bit integer - and each of the three fields is declared
nullable (`nullable = True`), not "not null". -/
theorem C6_schema_three_nullable_fields :
    schema =
      [⟨"id", DataType.LongType, true⟩,
       ⟨"value", DataType.DoubleType, true⟩,
       ⟨"group", DataType.LongType, true⟩] := rfl

/-! ## Claim C5: the storage round trip preserves the row count -/

/-- C5: when the object store is read-after-write consistent (a read of a
path returns exactly the dataset written to that path), the count of the
dataset re-read from `{input_path}/raw_data` (line 99) equals the count of
the dataset written there in the same run (line 84). -/
theorem C5_roundtrip_preserves_count (env : Env) (numRows : Nat)
    (input_path : String)
    (hstore : ∀ p d, env.storeRead p d = d) :
    read_count env numRows input_path = initial_count env numRows := by
  rw [read_count, initial_count, hstore]

/-- C5 witness: the consistent store of `trivEnv` in the reference
configuration. -/
theorem C5_witness :
    (∀ p d, trivEnv.storeRead p d = d) ∧
      read_count trivEnv refNumRows "s3://bucket/in" =
        initial_count trivEnv refNumRows :=
  ⟨fun _ _ => rfl,
   C5_roundtrip_preserves_count trivEnv refNumRows "s3://bucket/in"
     (fun _ _ => rfl)⟩

/-! ## Claim C2: session release on every exit path (refuted - no try/finally) -/

/-- C2 (actual code behaviour at the failing input): on the data-integrity
error path - both paths non-empty, but the store returns zero rows on the
re-read - the session is acquired (`sessionStart` is in the trace) and is
never released: `spark.stop()` (line 186) is only reached by falling through
the whole normal path, and the `raise` of line 103 is not wrapped in any
try/finally. -/
theorem C2_stop_skipped_on_data_error (env : Env) (numRows : Nat)
    (input_path output_path : String)
    (hin : ¬ input_path = "") (hout : ¬ output_path = "")
    (hread : read_count env numRows input_path = 0) :
    Event.sessionStart ∈
        (run_complex_spark_job env numRows input_path output_path).2 ∧
      Event.sessionStop ∉
        (run_complex_spark_job env numRows input_path output_path).2 := by
  rw [run_complex_spark_job, if_neg (by tauto)]
  simp [hread]

/-- C2 witness: dataset size 1, non-empty paths, a store that loses the
written data. -/
theorem C2_witness :
    (¬ "s3://bucket/in" = "") ∧ (¬ "s3://bucket/out" = "") ∧
      read_count emptyStoreEnv 1 "s3://bucket/in" = 0 ∧
      (Event.sessionStart ∈
          (run_complex_spark_job emptyStoreEnv 1 "s3://bucket/in"
            "s3://bucket/out").2 ∧
        Event.sessionStop ∉
          (run_complex_spark_job emptyStoreEnv 1 "s3://bucket/in"
            "s3://bucket/out").2) :=
  ⟨by decide, by decide, rfl,
   C2_stop_skipped_on_data_error emptyStoreEnv 1 "s3://bucket/in"
     "s3://bucket/out" (by decide) (by decide) rfl⟩

/-! ## Claim C4: a zero-row reload stops the pipeline -/

/-- C4: if the re-read of `{input_path}/raw_data` yields zero rows, the run
raises the data-integrity `ValueError` of line 103 and its trace ends at the
second forcing count: no caching, transformation, aggregation, join, window
computation, SQL query or result write occurs after the error, and the only
object-store write of the whole run is the initial `raw_data` write. -/
theorem C4_data_error_stops_pipeline (env : Env) (numRows : Nat)
    (input_path output_path : String)
    (hin : ¬ input_path = "") (hout : ¬ output_path = "")
    (hread : read_count env numRows input_path = 0) :
    run_complex_spark_job env numRows input_path output_path =
        (Except.error (JobError.valueError dataErrorMsg),
         [Event.sessionStart,
          Event.write (input_path ++ "/raw_data") ("overwrite"),
          Event.countJob (initial_count env numRows),
          Event.countJob 0]) ∧
      writeEvents (run_complex_spark_job env numRows input_path output_path).2 =
        [Event.write (input_path ++ "/raw_data") ("overwrite")] := by
  rw [run_complex_spark_job, if_neg (by tauto)]
  simp [hread, writeEvents]

/-- C4 witness: dataset size 1, non-empty paths, a store that loses the
written data. -/
theorem C4_witness :
    (¬ "s3://bucket/in" = "") ∧ (¬ "s3://bucket/out" = "") ∧
      read_count emptyStoreEnv 1 "s3://bucket/in" = 0 ∧
      (run_complex_spark_job emptyStoreEnv 1 "s3://bucket/in" "s3://bucket/out" =
          (Except.error (JobError.valueError dataErrorMsg),
           [Event.sessionStart,
            Event.write ("s3://bucket/in" ++ "/raw_data") ("overwrite"),
            Event.countJob (initial_count emptyStoreEnv 1),
            Event.countJob 0]) ∧
        writeEvents (run_complex_spark_job emptyStoreEnv 1 "s3://bucket/in"
            "s3://bucket/out").2 =
          [Event.write ("s3://bucket/in" ++ "/raw_data") ("overwrite")]) :=
  ⟨by decide, by decide, rfl,
   C4_data_error_stops_pipeline emptyStoreEnv 1 "s3://bucket/in"
     "s3://bucket/out" (by decide) (by decide) rfl⟩

/-! ## Claim C1: a completing run writes exactly the three documented locations -/

/-- C1: for every run with non-empty `input_path` and `output_path` that
completes successfully, the object-store writes are exactly three, in order:
`{input_path}/raw_data`, `{output_path}/sql_results` and
`{output_path}/final_results`, each with write mode "overwrite"; no other
location is written. -/
theorem C1_exactly_three_writes (env : Env) (numRows : Nat)
    (input_path output_path : String)
    (hin : ¬ input_path = "") (hout : ¬ output_path = "")
    (hok : (run_complex_spark_job env numRows input_path output_path).1 =
      Except.ok ()) :
    writeEvents (run_complex_spark_job env numRows input_path output_path).2 =
      [Event.write (input_path ++ "/raw_data") ("overwrite"),
       Event.write (output_path ++ "/sql_results") ("overwrite"),
       Event.write (output_path ++ "/final_results") ("overwrite")] := by
  by_cases hrc : read_count env numRows input_path = 0
  · rw [run_complex_spark_job, if_neg (by tauto)] at hok
    simp [hrc] at hok
  · rw [run_complex_spark_job, if_neg (by tauto)]
    simp [hrc, writeEvents]

/-- C1 witness: dataset size 1, non-empty paths, the consistent store of
`trivEnv`; the run completes and produces exactly the three writes. -/
theorem C1_witness :
    (¬ "s3://bucket/in" = "") ∧ (¬ "s3://bucket/out" = "") ∧
      (run_complex_spark_job trivEnv 1 "s3://bucket/in" "s3://bucket/out").1 =
        Except.ok () ∧
      writeEvents (run_complex_spark_job trivEnv 1 "s3://bucket/in"
          "s3://bucket/out").2 =
        [Event.write ("s3://bucket/in" ++ "/raw_data") ("overwrite"),
         Event.write ("s3://bucket/out" ++ "/sql_results") ("overwrite"),
         Event.write ("s3://bucket/out" ++ "/final_results") ("overwrite")] :=
  ⟨by decide, by decide, rfl,
   C1_exactly_three_writes trivEnv 1 "s3://bucket/in" "s3://bucket/out"
     (by decide) (by decide) rfl⟩

/-! ## Claim C9: generation is deterministic in count and groups -/

/-- C9: any two runs of the generation stage with the same configuration -
that is, with any two environments, hence any two draws of the engine's
random source - produce datasets with identical row count (10,000,000 in the
reference configuration) and an identical `group` column, since
`group = id % 1000` is a deterministic function of `id`; the `value` column,
in contrast, depends on the random draw, and two runs can differ there. -/
theorem C9_generation_deterministic_in_count_and_groups (e1 e2 : Env) :
    (genDF e1 refNumRows).length = 10000000 ∧
      (genDF e2 refNumRows).length = 10000000 ∧
      (genDF e1 refNumRows).map (·.group) = (genDF e2 refNumRows).map (·.group) ∧
      ∃ e3 e4 : Env,
        (genDF e3 refNumRows).map (·.value) ≠ (genDF e4 refNumRows).map (·.value) := by
  refine ⟨by simp [genDF, refNumRows], by simp [genDF, refNumRows],
    by simp [genDF, List.map_map], ?_⟩
  refine ⟨trivEnv,
    ⟨fun _ => 1, fun _ => 0, fun _ => 0, fun _ => 0, fun _ _ => 0,
     fun l => l.dedup.length, fun _ d => d⟩, fun h => ?_⟩
  rw [genDF, genDF, List.map_map, List.map_map, List.map_inj_left] at h
  have h0 := h 0 (List.mem_range.2 (by norm_num [refNumRows]))
  simp [trivEnv] at h0

/-! ## Shared lemmas: the `group` column through the pipeline stages -/

/-- The `group` column of `df1` is `id % 1000` of the source rows
(line 113 recomputes it). -/
lemma map_group_mkDf1 (env : Env) (rows : List GenRow) :
    (mkDf1 env rows).map (·.group) = rows.map (·.id % 1000) := by
  rw [mkDf1, List.map_map]
  rfl

/-- The window stage adds columns but does not change any row's `group`. -/
lemma map_group_windowFuncs (rows : List Row3) :
    (windowFuncs rows).map (·.group) = rows.map (·.group) := by
  rw [windowFuncs, List.map_map]
  rfl

/-- The `group` keys of the `df2` aggregate are the distinct `group` values
of `df1`, in first-occurrence order. -/
lemma map_group_mkDf2 (env : Env) (rows : List Row1) :
    (mkDf2 env rows).map (·.group) = (rows.map (·.group)).dedup := by
  rw [mkDf2, List.map_map]
  exact List.map_id _

/-- The `group` keys of the final aggregate are the distinct `group` values
of its input. -/
lemma map_group_finalAgg (env : Env) (rows : List Row4) :
    (finalAgg env rows).map (·.group) = (rows.map (·.group)).dedup := by
  rw [finalAgg, List.map_map]
  exact List.map_id _

/-- Counting occurrences in a mapped list is counting preimages. -/
lemma count_map_eq_countP (l : List α) (f : α → Nat) (g : Nat) :
    (l.map f).count g = l.countP fun x => f x == g := by
  induction l with
  | nil => rfl
  | cons a t ih => simp [List.count_cons, List.countP_cons, ih, beq_iff_eq]

/-- A flatMap in which each fragment contributes one hit exactly when the
source element satisfies `q` has as many hits as `q`-elements. -/
lemma countP_flatMap_singleton (p : β → Bool) (q : α → Bool) (l : List α)
    (f : α → List β)
    (h : ∀ a ∈ l, (f a).countP p = if q a then 1 else 0) :
    (l.flatMap f).countP p = l.countP q := by
  induction l with
  | nil => rfl
  | cons a t ih =>
      rw [List.flatMap_cons, List.countP_append,
        h a (List.mem_cons_self a t),
        List.countP_cons,
        ih fun x hx => h x (List.mem_cons_of_mem a hx)]
      cases hq : q a <;> simp [Nat.add_comm]

/-- `df2` has exactly one row whose `group` equals the `group` of any given
`df1` row: its keys are the deduplicated `df1` groups. -/
lemma length_filter_mkDf2 (env : Env) (df1 : List Row1) (r : Row1)
    (hr : r ∈ df1) :
    ((mkDf2 env df1).filter fun a => a.group == r.group).length = 1 := by
  rw [← List.countP_eq_length_filter, ← count_map_eq_countP, map_group_mkDf2,
    List.count_dedup, if_pos (List.mem_map.2 ⟨r, hr, rfl⟩)]

/-- The inner equi-join of `df1` with its own `group` aggregate matches each
`df1` row exactly once, so the `group` column of the join has the same
multiplicities as that of `df1`. -/
lemma count_group_joinOnGroup (env : Env) (df1 : List Row1) (g : Nat) :
    ((joinOnGroup df1 (mkDf2 env df1)).map (·.group)).count g =
      (df1.map (·.group)).count g := by
  rw [count_map_eq_countP, count_map_eq_countP, joinOnGroup]
  refine countP_flatMap_singleton _ _ _ _ fun r hr => ?_
  rw [List.countP_map]
  have hconst :
      ((fun r3 : Row3 => r3.group == g) ∘ fun a : AggRow =>
        (⟨r.group, r.id, r.value, r.random, r.complex_calc,
          a.count, a.sum, a.avg, a.median⟩ : Row3)) =
        fun _ : AggRow => r.group == g := rfl
  rw [hconst]
  cases hq : r.group == g with
  | true =>
      simp only [hq, List.countP_true]
      rw [length_filter_mkDf2 env df1 r hr]
      simp
  | false =>
      simp only [hq, List.countP_false]
      rfl

/-- The `group` column of the pipeline's `df4` has the same multiplicities
as the `group` column of `df1`. -/
lemma count_group_pipelineDf4 (env : Env) (numRows : Nat)
    (input_path : String) (g : Nat) :
    ((pipelineDf4 env numRows input_path).map (·.group)).count g =
      ((mkDf1 env (env.storeRead (input_path ++ "/raw_data")
          (genDF env numRows))).map (·.group)).count g := by
  simp only [pipelineDf4, repartition]
  rw [map_group_windowFuncs, count_group_joinOnGroup]

/-- Every `group` value of `df1` is below 1000, since line 113 recomputes
`group = id % 1000`. -/
lemma mem_map_group_mkDf1_lt (env : Env) (rows : List GenRow) (g : Nat)
    (hg : g ∈ (mkDf1 env rows).map (·.group)) : g < 1000 := by
  rw [map_group_mkDf1] at hg
  obtain ⟨r, _, rfl⟩ := List.mem_map.1 hg
  exact Nat.mod_lt _ (by norm_num)

/-- A `group` value occurs in `df4` exactly when it occurs in `df1`. -/
lemma mem_group_pipelineDf4_iff (env : Env) (numRows : Nat)
    (input_path : String) (g : Nat) :
    g ∈ (pipelineDf4 env numRows input_path).map (·.group) ↔
      g ∈ (mkDf1 env (env.storeRead (input_path ++ "/raw_data")
        (genDF env numRows))).map (·.group) := by
  rw [← List.count_pos_iff, ← List.count_pos_iff, count_group_pipelineDf4]

/-- A duplicate-free list of naturals all below `b` has at most `b`
elements. -/
lemma length_dedup_le_of_lt (l : List Nat) (b : Nat) (h : ∀ x ∈ l, x < b) :
    l.dedup.length ≤ b := by
  have hsub : l.dedup.toFinset ⊆ Finset.range b := fun x hx =>
    Finset.mem_range.2 (h x (List.mem_dedup.1 (List.mem_toFinset.1 hx)))
  have hc := Finset.card_le_card hsub
  rwa [List.toFinset_card_of_nodup (List.nodup_dedup l), Finset.card_range]
    at hc

/-! ## Claim C8: `final_results` has at most 1000 rows -/

/-- C8: in the reference configuration the `final_results` dataset has at
most 1000 rows - its rows are one per distinct `group` value (so its `group`
column is duplicate-free), and every `group` value is `id % 1000 < 1000`. -/
theorem C8_final_results_at_most_1000 (env : Env) (input_path : String) :
    (pipelineFinalResult env refNumRows input_path).length ≤ 1000 ∧
      ((pipelineFinalResult env refNumRows input_path).map (·.group)).Nodup := by
  constructor
  · simp only [pipelineFinalResult, finalAgg, repartition, List.length_map]
    refine length_dedup_le_of_lt _ _ fun g hg => ?_
    exact mem_map_group_mkDf1_lt env _ g
      ((mem_group_pipelineDf4_iff env refNumRows input_path g).1 hg)
  · rw [pipelineFinalResult, map_group_finalAgg]
    exact List.nodup_dedup _

/-! ## Claim C7: the HAVING filter bounds `sql_results`, `final_results` keeps all groups -/

/-- C7: every group appearing in the SQL query's result has strictly more
than 100 member rows in the queried (ranked) dataset - the
`HAVING count(*) > 100` filter admits no other group - while the final
aggregation keeps every group of its input dataset, with no filter: every
input row's group appears in `final_results`. -/
theorem C7_having_filter_vs_final (env : Env) (rows : List Row4) :
    (∀ s ∈ sqlQuery env rows,
        100 < rows.countP fun r => r.group == s.group) ∧
      ∀ r ∈ rows, ∃ f ∈ finalAgg env rows, f.group = r.group := by
  constructor
  · intro s hs
    simp only [sqlQuery] at hs
    have hs2 := (List.mergeSort_perm _ _).mem_iff.1 hs
    obtain ⟨p, hp, hps⟩ := List.mem_map.1 hs2
    obtain ⟨hpg, hp100⟩ := List.mem_filter.1 hp
    obtain ⟨g, hg, hgp⟩ := List.mem_map.1 hpg
    subst hps
    subst hgp
    rw [List.countP_eq_length_filter]
    exact of_decide_eq_true hp100
  · intro r hr
    have hmem : r.group ∈ (finalAgg env rows).map (·.group) := by
      rw [map_group_finalAgg]
      exact List.mem_dedup.2 (List.mem_map.2 ⟨r, hr, rfl⟩)
    obtain ⟨f, hf, hfg⟩ := List.mem_map.1 hmem
    exact ⟨f, hf, hfg⟩

set_option maxRecDepth 100000 in
/-- C7 witness: the 101-member single-group dataset.  Its one SQL result row
(the aggregate row of group 0) passes the HAVING filter with 101 > 100
members, and the group of the first input row appears in the final
aggregation. -/
theorem C7_witness :
    (sqlAggRow trivEnv rows101 0 ∈ sqlQuery trivEnv rows101) ∧
      (100 < rows101.countP fun r =>
        r.group == (sqlAggRow trivEnv rows101 0).group) ∧
      ((⟨0, 0, 0, 0, 0, 0, 0, 0, 0, 0, 0, 0⟩ : Row4) ∈ rows101) ∧
      ∃ f ∈ finalAgg trivEnv rows101,
        f.group = (⟨0, 0, 0, 0, 0, 0, 0, 0, 0, 0, 0, 0⟩ : Row4).group := by
  have hmem : sqlAggRow trivEnv rows101 0 ∈ sqlQuery trivEnv rows101 := by
    simp only [sqlQuery]
    refine (List.mergeSort_perm _ _).mem_iff.2 ?_
    have hdedup : (rows101.map (·.group)).dedup = [0] := by decide
    have hlen : 100 < (rows101.filter fun r => r.group == 0).length := by decide
    rw [hdedup]
    simp [hlen]
  exact ⟨hmem,
    (C7_having_filter_vs_final trivEnv rows101).1 _ hmem,
    by decide,
    (C7_having_filter_vs_final trivEnv rows101).2 _ (by decide)⟩

/-! ## Claim C10: in the reference configuration the HAVING filter excludes nothing -/

/-- With a consistent store, the `group` multiplicities of the pipeline's
`df4` are those of `id % 1000` over `0..numRows-1`. -/
lemma count_group_pipeline_consistent (env : Env) (numRows : Nat)
    (input_path : String) (hstore : ∀ p d, env.storeRead p d = d) (g : Nat) :
    ((pipelineDf4 env numRows input_path).map (·.group)).count g =
      ((List.range numRows).map (· % 1000)).count g := by
  rw [count_group_pipelineDf4, hstore, map_group_mkDf1, genDF, List.map_map]
  rfl

/-- Each block of `b` consecutive naturals contributes each residue once:
`id % b` over `0..a*b-1` takes every value `g < b` exactly `a` times. -/
lemma count_map_mod_range (a b g : Nat) (hg : g < b) :
    ((List.range (a * b)).map (· % b)).count g = a := by
  induction a with
  | zero => simp
  | succ a ih =>
      have hab : (a + 1) * b = a * b + b := by ring
      rw [hab, List.range_add, List.map_append, List.count_append, ih]
      have hmap : (List.map (fun x => a * b + x) (List.range b)).map (· % b) =
          List.range b := by
        rw [List.map_map]
        have hcong : ∀ x ∈ List.range b,
            ((· % b) ∘ fun x => a * b + x) x = id x := by
          intro x hx
          show (a * b + x) % b = x
          rw [Nat.mul_comm a b, Nat.mul_add_mod]
          exact Nat.mod_eq_of_lt (List.mem_range.1 hx)
        rw [List.map_congr_left hcong, List.map_id]
      rw [hmap,
        List.count_eq_one_of_mem (List.nodup_range b) (List.mem_range.2 hg)]

/-- The residues `id % 1000` over `0..numRows-1` cover exactly `0..999` when
`numRows ≥ 1000`. -/
lemma mem_map_mod_range_iff (numRows g : Nat) (h1000 : 1000 ≤ numRows) :
    g ∈ (List.range numRows).map (· % 1000) ↔ g < 1000 := by
  constructor
  · intro hg
    obtain ⟨i, _, rfl⟩ := List.mem_map.1 hg
    exact Nat.mod_lt _ (by norm_num)
  · intro hg
    exact List.mem_map.2
      ⟨g, List.mem_range.2 (lt_of_lt_of_le hg h1000), Nat.mod_eq_of_lt hg⟩

/-- A list of naturals whose members are exactly `0..b-1` has `b` distinct
values. -/
lemma dedup_length_of_mem_iff (l : List Nat) (b : Nat)
    (h : ∀ g, g ∈ l ↔ g < b) : l.dedup.length = b := by
  have ht : l.dedup.toFinset = Finset.range b := by
    ext x
    simp only [List.mem_toFinset, List.mem_dedup, Finset.mem_range]
    exact h x
  have hc := congrArg Finset.card ht
  rwa [List.toFinset_card_of_nodup (List.nodup_dedup l), Finset.card_range]
    at hc

/-- When every group of the queried dataset has more than 100 members, the
`HAVING count(*) > 100` filter keeps every group: the SQL result has one row
per distinct group, and its `group` column is a permutation of the distinct
groups of the input. -/
lemma sqlQuery_groups_of_all_big (env : Env) (rows : List Row4)
    (hbig : ∀ g ∈ (rows.map (·.group)).dedup,
      100 < (rows.filter fun r => r.group == g).length) :
    (sqlQuery env rows).length = (rows.map (·.group)).dedup.length ∧
      ((sqlQuery env rows).map (·.group)).Perm (rows.map (·.group)).dedup := by
  have hfil : (((rows.map (·.group)).dedup).map fun g =>
        ((rows.filter fun r => r.group == g).length, sqlAggRow env rows g)).filter
          (fun p => 100 < p.1) =
      ((rows.map (·.group)).dedup).map fun g =>
        ((rows.filter fun r => r.group == g).length, sqlAggRow env rows g) := by
    refine List.filter_eq_self.2 fun p hp => ?_
    obtain ⟨g, hg, rfl⟩ := List.mem_map.1 hp
    exact decide_eq_true (hbig g hg)
  have hperm0 : (sqlQuery env rows).Perm
      ((((rows.map (·.group)).dedup).map fun g =>
        ((rows.filter fun r => r.group == g).length,
         sqlAggRow env rows g)).map (·.2)) := by
    simp only [sqlQuery]
    rw [hfil]
    exact List.mergeSort_perm _ _
  have hmapval : (((((rows.map (·.group)).dedup).map fun g =>
        ((rows.filter fun r => r.group == g).length,
         sqlAggRow env rows g)).map (·.2)).map (·.group)) =
      (rows.map (·.group)).dedup := by
    rw [List.map_map, List.map_map]
    exact List.map_id _
  refine ⟨?_, ?_⟩
  · rw [hperm0.length_eq, List.length_map, List.length_map]
  · have hp := hperm0.map (·.group)
    rwa [hmapval] at hp

/-- C10: in the reference configuration (dataset size 10,000,000, consistent
store) every one of the 1000 groups has exactly 10,000 member rows in the
ranked dataset `df4`, so the `HAVING count(*) > 100` filter excludes
nothing: `sql_results` and `final_results` both consist of exactly the same
1000 groups, the groups `0..999`. -/
theorem C10_reference_having_excludes_nothing (env : Env)
    (input_path : String) (hstore : ∀ p d, env.storeRead p d = d) :
    (∀ g, g < 1000 →
        ((pipelineDf4 env refNumRows input_path).map (·.group)).count g = 10000) ∧
      (∀ g, (∃ s ∈ pipelineSqlResult env refNumRows input_path, s.group = g) ↔
        g < 1000) ∧
      (∀ g, (∃ f ∈ pipelineFinalResult env refNumRows input_path, f.group = g) ↔
        g < 1000) ∧
      (pipelineSqlResult env refNumRows input_path).length = 1000 ∧
      (pipelineFinalResult env refNumRows input_path).length = 1000 := by
  have hN : refNumRows = 10000 * 1000 := by norm_num [refNumRows]
  have hcount := count_group_pipeline_consistent env refNumRows input_path hstore
  have hc10000 : ∀ g, g < 1000 →
      ((pipelineDf4 env refNumRows input_path).map (·.group)).count g = 10000 := by
    intro g hg
    rw [hcount g, hN, count_map_mod_range 10000 1000 g hg]
  have hmem : ∀ g,
      g ∈ (pipelineDf4 env refNumRows input_path).map (·.group) ↔ g < 1000 := by
    intro g
    rw [← List.count_pos_iff, hcount g, List.count_pos_iff,
      mem_map_mod_range_iff refNumRows g (by norm_num [refNumRows])]
  have hdedup : ((pipelineDf4 env refNumRows input_path).map (·.group)).dedup.length
      = 1000 := dedup_length_of_mem_iff _ 1000 hmem
  have hbig : ∀ g ∈ ((pipelineDf4 env refNumRows input_path).map (·.group)).dedup,
      100 < ((pipelineDf4 env refNumRows input_path).filter
        fun r => r.group == g).length := by
    intro g hg
    have hglt : g < 1000 := (hmem g).1 (List.mem_dedup.1 hg)
    have heq : ((pipelineDf4 env refNumRows input_path).filter
        fun r => r.group == g).length =
        ((pipelineDf4 env refNumRows input_path).map (·.group)).count g := by
      rw [count_map_eq_countP, List.countP_eq_length_filter]
    rw [heq, hc10000 g hglt]
    norm_num
  obtain ⟨hlen, hperm⟩ :=
    sqlQuery_groups_of_all_big env (pipelineDf4 env refNumRows input_path) hbig
  have hfinalmap : (pipelineFinalResult env refNumRows input_path).map (·.group) =
      ((pipelineDf4 env refNumRows input_path).map (·.group)).dedup := by
    rw [pipelineFinalResult, map_group_finalAgg]
    rfl
  refine ⟨hc10000, ?_, ?_, ?_, ?_⟩
  · intro g
    rw [show (∃ s ∈ pipelineSqlResult env refNumRows input_path, s.group = g) ↔
        g ∈ (pipelineSqlResult env refNumRows input_path).map (·.group) from
      List.mem_map.symm]
    rw [pipelineSqlResult]
    rw [hperm.mem_iff, List.mem_dedup]
    exact hmem g
  · intro g
    rw [show (∃ f ∈ pipelineFinalResult env refNumRows input_path, f.group = g) ↔
        g ∈ (pipelineFinalResult env refNumRows input_path).map (·.group) from
      List.mem_map.symm]
    rw [hfinalmap, List.mem_dedup]
    exact hmem g
  · rw [pipelineSqlResult]
    rw [hlen, hdedup]
  · rw [← List.length_map (pipelineFinalResult env refNumRows input_path) (·.group),
      hfinalmap, hdedup]

/-- C10 witness: the consistent store of `trivEnv` at an explicit input
path. -/
theorem C10_witness :
    (∀ p d, trivEnv.storeRead p d = d) ∧
      ((∀ g, g < 1000 →
          ((pipelineDf4 trivEnv refNumRows "s3://bucket/in").map (·.group)).count g
            = 10000) ∧
        (∀ g, (∃ s ∈ pipelineSqlResult trivEnv refNumRows "s3://bucket/in",
          s.group = g) ↔ g < 1000) ∧
        (∀ g, (∃ f ∈ pipelineFinalResult trivEnv refNumRows "s3://bucket/in",
          f.group = g) ↔ g < 1000) ∧
        (pipelineSqlResult trivEnv refNumRows "s3://bucket/in").length = 1000 ∧
        (pipelineFinalResult trivEnv refNumRows "s3://bucket/in").length = 1000) :=
  ⟨fun _ _ => rfl,
   C10_reference_having_excludes_nothing trivEnv "s3://bucket/in"
     (fun _ _ => rfl)⟩

end SparkHistoryDemo
